import Mathlib

/-!
Shallow embedding of the data refresh and caching subsystem of the
dashboard repository (src/utils/loaders.py).

Tables (pandas DataFrames) are modelled as lists of named, typed columns of
cell values.  The local filesystem is an association list from paths to file
entries carrying a modification instant and a content.  External
nondeterminism (Google Drive metadata, download outcome, schema-inspection
outcome, the remote file's table, the wall clock) is collected in an
`Oracle` record that each run of the pipeline is parameterised by.
Python exceptions that are caught inside a function are modelled by the
corresponding fallback branch; the only exception that can escape an
accessor (a missing file-id key in `st.secrets["drive_files"]`) is modelled
with `Except`.
-/

/-- Pandas dtypes that occur in the loader: plain object columns,
dictionary-encoded categoricals, 32-bit integers and datetimes. -/
inductive Dtype
  | obj
  | cat
  | int32
  | datetime
deriving DecidableEq

/-- A cell value of a table: text, integer, null (NaN/NaT) or a date
(encoded as days since the Unix epoch). -/
inductive CVal
  | vstr (s : String)
  | vint (n : Int)
  | vnull
  | vdate (d : Int)
deriving DecidableEq

/-- One column of a table. -/
structure Column where
  name : String
  dtype : Dtype
  vals : List CVal
deriving DecidableEq

/-- A DataFrame: a list of columns. -/
abbrev DF := List Column

/-- Content of an on-disk artifact: either a fully serialized table, or the
truncated leftover of an interrupted chunked download. -/
inductive FileContent
  | table (df : DF)
  | truncated
deriving DecidableEq

/-- An on-disk file: filesystem modification instant plus content. -/
structure FileEntry where
  mtime : Int
  content : FileContent
deriving DecidableEq

/-- The local filesystem: an association list from paths to files.
`writeF` keeps keys unique, so a path holds at most one file. -/
abbrev FS := List (String × FileEntry)

/-- Model of `st.secrets`: presence of the two top-level sections, whether
credential exchange succeeds, and the keys present under `drive_files`. -/
structure Secrets where
  hasGcp : Bool
  hasDriveFiles : Bool
  authOk : Bool
  driveKeys : List String
deriving DecidableEq

/-- External nondeterminism of one refresh run: the remote modification
instant (`none` when metadata retrieval failed), whether the chunked
download completes, whether `pyarrow.parquet.read_schema` raises on the raw
file, the table held by the remote file, and the current instant (used as
the mtime of files written during the run). -/
structure Oracle where
  driveDt : Option Int
  downloadOk : Bool
  schemaFails : Bool
  remoteTable : DF
  now : Int
deriving DecidableEq

def PATH_VENDAS : String := "data/vendas.parquet"

def PATH_CROWLEY_RAW : String := "data/crowley_raw.parquet"

def PATH_CROWLEY_OPT : String := "data/crowley_opt.parquet"

/-- Look a path up in the filesystem (`os.path.exists` / reading a file). -/
def lookupF (fs : FS) (p : String) : Option FileEntry :=
  (fs.find? (fun e => decide (e.1 = p))).map (fun e => e.2)

/-- Delete a path (`os.remove`, a no-op when the path is absent, matching
the `os.path.exists` guards and swallowed deletion errors in the source). -/
def removeF (fs : FS) (p : String) : FS :=
  fs.filter (fun e => !decide (e.1 = p))

/-- Create or truncate-and-write a path (`open(path, "wb")` followed by a
write, or `DataFrame.to_parquet`). -/
def writeF (fs : FS) (p : String) (f : FileEntry) : FS :=
  (p, f) :: removeF fs p

/-- Number of artifacts stored at a path. -/
def countKey (fs : FS) (p : String) : Nat :=
  (fs.filter (fun e => decide (e.1 = p))).length

/-- Column lookup by label (`col in df.columns` / `df[col]`). -/
def findCol (df : DF) (n : String) : Option Column :=
  df.find? (fun c => decide (c.name = n))

/-- The list of column labels of a table (`df.columns` / `schema.names`). -/
def colNames (df : DF) : List String :=
  df.map (fun c => c.name)

/-- The column allow-list of `optimize_crowley`. -/
def cols_to_load : List String :=
  ["Data", "Praca", "Emissora", "Anunciante", "Anuncio",
   "Tipo", "DayPart", "Volume de Insercoes", "Duracao"]

/-- The designated low-cardinality columns recoded to categoricals. -/
def cols_cat : List String :=
  ["Praca", "Emissora", "Anunciante", "Anuncio", "Tipo", "DayPart"]

/-- The designated count/measure columns narrowed to int32. -/
def cols_num : List String :=
  ["Volume de Insercoes", "Duracao"]

/-- Model of `pd.read_parquet(path, columns=cols)`: keep exactly the
requested columns.  The source requests them in allow-list order; column
order is not observed by any property below, so source order is kept. -/
def selectCols (df : DF) (cols : List String) : DF :=
  df.filter (fun c => decide (c.name ∈ cols))

def isDigitC (c : Char) : Bool :=
  decide (48 ≤ c.toNat ∧ c.toNat ≤ 57)

def digitsToNat (l : List Char) : Nat :=
  l.foldl (fun a c => a * 10 + (c.toNat - 48)) 0

/-- Parse an unsigned decimal literal with an optional fractional part,
returning its integer part (numpy's cast to int32 truncates toward zero). -/
def parseDigits (cs : List Char) : Option Nat :=
  let ip := cs.takeWhile isDigitC
  let rest := cs.drop ip.length
  match rest with
  | [] => if ip.isEmpty then none else some (digitsToNat ip)
  | '.' :: fp =>
    if (ip.isEmpty && fp.isEmpty) || !(fp.all isDigitC) then none
    else some (digitsToNat ip)
  | _ => none

/-- Model of the numeric parse inside `pd.to_numeric(.., errors="coerce")`
for plain decimal literals (exponent and other exotic forms are not
modelled; they do not occur in the data handled by the properties). -/
def parseNumS (s : String) : Option Int :=
  match s.data with
  | '-' :: cs => (parseDigits cs).map (fun n => -(n : Int))
  | cs => (parseDigits cs).map (fun n => (n : Int))

/-- Reduction modulo 2^32 into the signed 32-bit range, the effect of
`astype("int32")` on an out-of-range value. -/
def wrap32 (x : Int) : Int :=
  (x + 2147483648).emod 4294967296 - 2147483648

/-- One cell of a designated numeric column after
`pd.to_numeric(errors="coerce").fillna(0).astype("int32")`: unparseable
text and nulls become 0, everything is reduced to int32 range. -/
def numCellVal (v : CVal) : Int :=
  wrap32 (match v with
    | CVal.vint n => n
    | CVal.vstr s => (parseNumS s).getD 0
    | _ => 0)

/-- Days since the Unix epoch of a civil date (standard civil-calendar
conversion, used to model datetime values). -/
def daysFromCivil (y : Int) (m d : Nat) : Int :=
  let yAdj := if m ≤ 2 then y - 1 else y
  let era := yAdj.fdiv 400
  let yoe := (yAdj - era * 400).toNat
  let mp := if 2 < m then m - 3 else m + 9
  let doy := (153 * mp + 2) / 5 + d - 1
  let doe := yoe * 365 + yoe / 4 - yoe / 100 + doy
  era * 146097 + (doe : Int) - 719468

/-- Civil date (year, month, day) of a days-since-epoch count (inverse of
`daysFromCivil`). -/
def civilFromDays (z0 : Int) : Int × Nat × Nat :=
  let z := z0 + 719468
  let era := z.fdiv 146097
  let doe := (z - era * 146097).toNat
  let yoe := (doe - doe / 1460 + doe / 36524 - doe / 146096) / 365
  let doy := doe - (365 * yoe + yoe / 4 - yoe / 100)
  let mp := (5 * doy + 2) / 153
  let d := doy - (153 * mp + 2) / 5 + 1
  let m := if mp < 10 then mp + 3 else mp - 9
  ((yoe : Int) + era * 400 + (if m ≤ 2 then 1 else 0), m, d)

/-- Model of `pd.to_datetime(s, dayfirst=True, errors="coerce")` on one
text cell: day-first `dd/mm/yyyy` dates parse, everything else is NaT.
(The source data uses day-first text dates; other pandas-accepted layouts
are not modelled.) -/
def parseDateS (s : String) : Option Int :=
  match s.data with
  | [d1, d2, '/', m1, m2, '/', y1, y2, y3, y4] =>
    if ([d1, d2, m1, m2, y1, y2, y3, y4].all isDigitC) then
      let d := digitsToNat [d1, d2]
      let m := digitsToNat [m1, m2]
      let y := digitsToNat [y1, y2, y3, y4]
      if 1 ≤ d ∧ d ≤ 31 ∧ 1 ≤ m ∧ m ≤ 12 then some (daysFromCivil (y : Int) m d)
      else none
    else none
  | _ => none

/-- One cell of the derived date column: dates stay, parseable text becomes
a date, everything else becomes the null-date marker NaT. -/
def dateCell (v : CVal) : CVal :=
  match v with
  | CVal.vdate d => CVal.vdate d
  | CVal.vstr s =>
    match parseDateS s with
    | some d => CVal.vdate d
    | none => CVal.vnull
  | _ => CVal.vnull

/-- Step 1 of the type narrowing: recode a designated low-cardinality
column to categorical (`df[col].astype("category")`).  The source recodes
directly, with no prior coercion of the values to text. -/
def catOne (c : Column) : Column :=
  if c.name ∈ cols_cat then ⟨c.name, Dtype.cat, c.vals⟩ else c

def applyCat (df : DF) : DF := df.map catOne

/-- Step 2: narrow a designated numeric column
(`pd.to_numeric(errors="coerce").fillna(0).astype("int32")`). -/
def numOne (c : Column) : Column :=
  if c.name ∈ cols_num then
    ⟨c.name, Dtype.int32, c.vals.map (fun v => CVal.vint (numCellVal v))⟩
  else c

def applyNum (df : DF) : DF := df.map numOne

/-- Step 3: derive `Data_Dt` from `Data` (appended at the end, as pandas
column assignment does) and drop the raw `Data` column. -/
def applyDate (df : DF) : DF :=
  match findCol df "Data" with
  | some c =>
    (df.filter (fun x => decide (x.name ≠ "Data"))) ++
      [⟨"Data_Dt", Dtype.datetime, c.vals.map dateCell⟩]
  | none => df

/-- The in-memory ETL of `optimize_crowley`: column pruning (skipped when
schema inspection failed, in which case every column is read), categorical
recoding, numeric narrowing, date derivation. -/
def transform_df (df : DF) (schemaFails : Bool) : DF :=
  let df1 :=
    if schemaFails then df
    else selectCols df (cols_to_load.filter (fun c => decide (c ∈ colNames df)))
  applyDate (applyNum (applyCat df1))

/-- Model of `optimize_crowley(raw_path, opt_path)`.  When the raw file is
unreadable both the pruned and the fallback read raise and the outer
handler returns `False` with the filesystem untouched.  When it is
readable, the transformed table is persisted to `opt_path`; afterwards the
source runs `del df, schema`, and on the fallback path (schema inspection
raised) the local name `schema` was never bound, so `del` raises
`NameError` after the persist and the outer handler returns `False` - hence
the result flag is the negation of `schemaFails` while the optimized
artifact is written in both cases. -/
def optimize_crowley (fs : FS) (raw_path opt_path : String) (o : Oracle) : Bool × FS :=
  match lookupF fs raw_path with
  | some f =>
    match f.content with
    | FileContent.table df =>
      (!o.schemaFails,
        writeF fs opt_path ⟨o.now, FileContent.table (transform_df df o.schemaFails)⟩)
    | FileContent.truncated => (false, fs)
  | none => (false, fs)

/-- The freshness guard of `nuclear_download_sequence` (lines 126-131): the
cached artifact is kept exactly when it exists, the remote instant is
known, and the local modification instant is at least the remote one. -/
def freshCacheHit (fs : FS) (p : String) (driveDt : Option Int) : Bool :=
  match lookupF fs p, driveDt with
  | some f, some d => decide (d ≤ f.mtime)
  | _, _ => false

/-- The staleness decision: a refresh is needed iff the guard does not
hold. -/
def needs_refresh (fs : FS) (p : String) (driveDt : Option Int) : Bool :=
  !freshCacheHit fs p driveDt

/-- Model of `nuclear_download_sequence`: freshness check, destructive
reset (final then raw), chunked download (an interrupted transfer leaves a
truncated file, the exception is caught and `False` returned), and for
transformed datasets the ETL followed by deletion of the raw artifact and
propagation of the ETL's success flag.  `gc.collect()` and `time.sleep(1)`
have no observable effect in this model. -/
def nuclear_download_sequence (o : Oracle) (fs : FS) (path_final : String)
    (path_raw : Option String) (is_crowley : Bool) : Bool × FS :=
  if freshCacheHit fs path_final o.driveDt then
    (false, fs)
  else
    let fs2 :=
      match path_raw with
      | some p => removeF (removeF fs path_final) p
      | none => removeF fs path_final
    match (if is_crowley then path_raw else some path_final) with
    | none => (false, fs2)
    | some target =>
      if o.downloadOk then
        let fs3 := writeF fs2 target ⟨o.now, FileContent.table o.remoteTable⟩
        if is_crowley then
          match path_raw with
          | some praw =>
            let r := optimize_crowley fs3 praw path_final o
            if r.1 then (true, removeF r.2 praw) else (false, removeF r.2 praw)
          | none => (false, fs3)
        else
          (true, fs3)
      else
        (false, writeF fs2 target ⟨o.now, FileContent.truncated⟩)

/-- Decimal digit character for `n % 10`. -/
def digitChar (n : Nat) : Char := Char.ofNat (48 + n % 10)

/-- Render a civil date as the fixed-width `dd/mm/yyyy` string produced by
`strftime("%d/%m/%Y")`. -/
def formatCivilDMY (y : Int) (m d : Nat) : String :=
  String.mk [digitChar (d / 10), digitChar d, '/', digitChar (m / 10), digitChar m, '/',
    digitChar (y.toNat / 1000), digitChar (y.toNat / 100), digitChar (y.toNat / 10),
    digitChar y.toNat]

/-- Render a days-since-epoch instant as `dd/mm/yyyy`. -/
def formatDaysDMY (z : Int) : String :=
  formatCivilDMY (civilFromDays z).1 (civilFromDays z).2.1 (civilFromDays z).2.2

/-- Render a seconds-since-epoch filesystem instant as `dd/mm/yyyy`
(`datetime.fromtimestamp(ts).strftime("%d/%m/%Y")`). -/
def formatTsDMY (t : Int) : String :=
  formatDaysDMY (t.fdiv 86400)

/-- Render a days-since-epoch instant as `mm/yyyy`
(`strftime("%m/%Y")`). -/
def formatMY (z : Int) : String :=
  String.mk [digitChar ((civilFromDays z).2.1 / 10), digitChar (civilFromDays z).2.1, '/',
    digitChar ((civilFromDays z).1.toNat / 1000), digitChar ((civilFromDays z).1.toNat / 100),
    digitChar ((civilFromDays z).1.toNat / 10), digitChar (civilFromDays z).1.toNat]

/-- Render a seconds-since-epoch instant as `dd/mm/yyyy hh:mm`
(`strftime("%d/%m/%Y %H:%M")`). -/
def formatTsDMYHM (t : Int) : String :=
  let s := (t.emod 86400).toNat
  let h := s / 3600
  let mi := s % 3600 / 60
  formatTsDMY t ++ String.mk [' ', digitChar (h / 10), digitChar h, ':',
    digitChar (mi / 10), digitChar mi]

/-- Maximum of the date cells of a column, ignoring nulls
(`df[col].max()` on a datetime column: NaT entries are skipped, an
all-null or empty column yields NaT). -/
def maxDate (vals : List CVal) : Option Int :=
  vals.foldl
    (fun acc v =>
      match v, acc with
      | CVal.vdate d, some a => some (max a d)
      | CVal.vdate d, none => some d
      | _, a => a)
    none

/-- The date-derived part of the Crowley freshness label (lines 272-277):
the formatted maximum of `Data_Dt` when the column exists and its maximum
is non-null, the sentinel `"N/A"` otherwise. -/
def crowleyRawLabel (df : DF) : String :=
  match findCol df "Data_Dt" with
  | some c =>
    match maxDate c.vals with
    | some m => formatDaysDMY m
    | none => "N/A"
  | none => "N/A"

/-- The Crowley freshness label (lines 272-281): the date-derived label,
falling back to the formatted filesystem modification instant of the
optimized artifact while the sentinel is still in place. -/
def crowleyFreshness (df : DF) (mtime : Int) : String :=
  let u := crowleyRawLabel df
  if u = "N/A" then formatTsDMY mtime else u

/-- The date-derived part of the Vendas freshness label (lines 217-219):
the formatted maximum of `data_ref` when that column exists with datetime
dtype and a non-null maximum, the sentinel `"N/A"` otherwise. -/
def vendasRawLabel (df : DF) : String :=
  match findCol df "data_ref" with
  | some c =>
    if c.dtype = Dtype.datetime then
      match maxDate c.vals with
      | some m => formatMY m
      | none => "N/A"
    else "N/A"
  | none => "N/A"

/-- The Vendas freshness label (lines 216-223): the date-derived label,
falling back to the formatted modification instant of the Vendas artifact
when it exists, and the bare sentinel when it does not. -/
def vendasFreshness (df : DF) (fs : FS) : String :=
  let u := vendasRawLabel df
  if u = "N/A" then
    match lookupF fs PATH_VENDAS with
    | some f => formatTsDMYHM f.mtime
    | none => "N/A"
  else u

/-- Model of `get_drive_service`: `none` when either secrets section is
missing or the credential exchange raises (both caught in the source). -/
def get_drive_service (s : Secrets) : Option Unit :=
  if s.hasGcp ∧ s.hasDriveFiles then
    if s.authOk then some () else none
  else none

/-- The read-and-label section of `fetch_from_drive` (lines 206-229),
applied to the filesystem left by the pipeline: read failures (missing or
truncated artifact, `normalize_dataframe` raising) are caught and surface
as `(none, none)` - note the absent label.  `nf` stands for the
`normalize_dataframe` helper, whose module is not part of the sources;
`none` models it raising. -/
def vendas_read (nf : DF → Option DF) (fs1 : FS) : (Option DF × Option String) × FS :=
  match lookupF fs1 PATH_VENDAS with
  | some f =>
    match f.content with
    | FileContent.table raw =>
      match nf raw with
      | some df => ((some df, some (vendasFreshness df fs1)), fs1)
      | none => ((none, none), fs1)
    | FileContent.truncated => ((none, none), fs1)
  | none => ((none, none), fs1)

/-- Model of `fetch_from_drive`.  The file-id lookup
`st.secrets["drive_files"]["faturamento_xlsx"]` sits outside every handler,
so a missing key raises out of the accessor (`Except.error`).  The boolean
returned by the refresh pipeline is discarded. -/
def fetch_from_drive (s : Secrets) (o : Oracle) (nf : DF → Option DF) (fs : FS) :
    Except Unit ((Option DF × Option String) × FS) :=
  match get_drive_service s with
  | none => Except.ok ((none, none), fs)
  | some _ =>
    if "faturamento_xlsx" ∈ s.driveKeys then
      Except.ok (vendas_read nf (nuclear_download_sequence o fs PATH_VENDAS none false).2)
    else Except.error ()

/-- The read-and-label section of `load_crowley_base` (lines 260-291),
applied to the filesystem left by the pipeline: a missing optimized
artifact and a read-back failure surface as an absent table with a
descriptive label, and the read-back failure deletes the artifact. -/
def crowley_read (fs1 : FS) : (Option DF × Option String) × FS :=
  match lookupF fs1 PATH_CROWLEY_OPT with
  | none => ((none, some "Erro: Arquivo Inexistente"), fs1)
  | some f =>
    match f.content with
    | FileContent.table df =>
      ((some df, some (crowleyFreshness df f.mtime)), fs1)
    | FileContent.truncated =>
      ((none, some "Erro Leitura"), removeF fs1 PATH_CROWLEY_OPT)

/-- Model of `load_crowley_base`.  The boolean returned by the refresh
pipeline is discarded: success is decided by on-disk existence of the
optimized artifact.  The file-id lookup for `crowley_parquet` sits outside
every handler, so a missing key raises out of the accessor. -/
def load_crowley_base (s : Secrets) (o : Oracle) (fs : FS) :
    Except Unit ((Option DF × Option String) × FS) :=
  match get_drive_service s with
  | none => Except.ok ((none, some "Erro Conexão"), fs)
  | some _ =>
    if "crowley_parquet" ∈ s.driveKeys then
      Except.ok (crowley_read
        (nuclear_download_sequence o fs PATH_CROWLEY_OPT (some PATH_CROWLEY_RAW) true).2)
    else Except.error ()

/-! Helper lemmas about the filesystem and column-lookup primitives. -/

theorem lookupF_cons_pos (c : String × FileEntry) (tl : FS) (q : String)
    (h : c.1 = q) : lookupF (c :: tl) q = some c.2 := by
  simp [lookupF, List.find?_cons_of_pos, h]

theorem lookupF_cons_neg (c : String × FileEntry) (tl : FS) (q : String)
    (h : ¬ c.1 = q) : lookupF (c :: tl) q = lookupF tl q := by
  simp only [lookupF]
  rw [List.find?_cons_of_neg]
  simpa using h

theorem removeF_cons_pos (c : String × FileEntry) (tl : FS) (p : String)
    (h : c.1 = p) : removeF (c :: tl) p = removeF tl p := by
  simp [removeF, List.filter_cons, h]

theorem removeF_cons_neg (c : String × FileEntry) (tl : FS) (p : String)
    (h : ¬ c.1 = p) : removeF (c :: tl) p = c :: removeF tl p := by
  simp [removeF, List.filter_cons, h]

theorem countKey_cons_pos (c : String × FileEntry) (tl : FS) (p : String)
    (h : c.1 = p) : countKey (c :: tl) p = countKey tl p + 1 := by
  simp [countKey, List.filter_cons, h]

theorem countKey_cons_neg (c : String × FileEntry) (tl : FS) (p : String)
    (h : ¬ c.1 = p) : countKey (c :: tl) p = countKey tl p := by
  simp [countKey, List.filter_cons, h]

theorem lookupF_writeF_self (fs : FS) (p : String) (e : FileEntry) :
    lookupF (writeF fs p e) p = some e := by
  simp [lookupF, writeF]

theorem lookupF_removeF_self (fs : FS) (p : String) :
    lookupF (removeF fs p) p = none := by
  induction fs with
  | nil => rfl
  | cons c tl ih =>
    by_cases hc : c.1 = p
    · rw [removeF_cons_pos c tl p hc]
      exact ih
    · rw [removeF_cons_neg c tl p hc, lookupF_cons_neg c _ p hc]
      exact ih

theorem lookupF_removeF_ne (fs : FS) (p q : String) (h : q ≠ p) :
    lookupF (removeF fs p) q = lookupF fs q := by
  induction fs with
  | nil => rfl
  | cons c tl ih =>
    by_cases hc : c.1 = p
    · have hq : ¬ c.1 = q := fun hcq => h (hcq ▸ hc ▸ rfl)
      rw [removeF_cons_pos c tl p hc, lookupF_cons_neg c tl q hq]
      exact ih
    · by_cases hq : c.1 = q
      · rw [removeF_cons_neg c tl p hc, lookupF_cons_pos c _ q hq,
          lookupF_cons_pos c tl q hq]
      · rw [removeF_cons_neg c tl p hc, lookupF_cons_neg c _ q hq,
          lookupF_cons_neg c tl q hq]
        exact ih

theorem countKey_removeF_self (fs : FS) (p : String) :
    countKey (removeF fs p) p = 0 := by
  induction fs with
  | nil => rfl
  | cons c tl ih =>
    by_cases hc : c.1 = p
    · rw [removeF_cons_pos c tl p hc]
      exact ih
    · rw [removeF_cons_neg c tl p hc, countKey_cons_neg c _ p hc]
      exact ih

theorem countKey_removeF_ne (fs : FS) (p q : String) (h : q ≠ p) :
    countKey (removeF fs p) q = countKey fs q := by
  induction fs with
  | nil => rfl
  | cons c tl ih =>
    by_cases hc : c.1 = p
    · have hq : ¬ c.1 = q := fun hcq => h (hcq ▸ hc ▸ rfl)
      rw [removeF_cons_pos c tl p hc, countKey_cons_neg c tl q hq]
      exact ih
    · by_cases hq : c.1 = q
      · rw [removeF_cons_neg c tl p hc, countKey_cons_pos c _ q hq,
          countKey_cons_pos c tl q hq, ih]
      · rw [removeF_cons_neg c tl p hc, countKey_cons_neg c _ q hq,
          countKey_cons_neg c tl q hq]
        exact ih

theorem countKey_writeF_self (fs : FS) (p : String) (e : FileEntry) :
    countKey (writeF fs p e) p = 1 := by
  have h0 : countKey (removeF fs p) p = 0 := countKey_removeF_self fs p
  rw [writeF, countKey_cons_pos (p, e) _ p rfl, h0]

theorem findCol_name (df : DF) (n : String) (col : Column)
    (h : findCol df n = some col) : col.name = n := by
  have := List.find?_some h
  exact of_decide_eq_true this

theorem findCol_mem_colNames (df : DF) (n : String) (col : Column)
    (h : findCol df n = some col) : n ∈ colNames df := by
  have hmem : col ∈ df := List.mem_of_find?_eq_some h
  have hn : col.name = n := findCol_name df n col h
  exact hn ▸ List.mem_map_of_mem (fun c => c.name) hmem

theorem findCol_filter (df : DF) (p : Column → Bool) (n : String) (col : Column)
    (h : findCol df n = some col)
    (hall : ∀ c : Column, c.name = n → p c = true) :
    findCol (df.filter p) n = some col := by
  induction df with
  | nil => simp [findCol] at h
  | cons c tl ih =>
    by_cases hc : c.name = n
    · have hcol : c = col := by
        simpa [findCol, List.find?_cons_of_pos, hc] using h
      have hp : p c = true := hall c hc
      subst hcol
      simp [findCol, List.filter_cons, hp, List.find?_cons_of_pos, hc]
    · have htl : findCol tl n = some col := by
        simpa [findCol, List.find?_cons_of_neg, hc] using h
      by_cases hp : p c = true
      · have := ih htl
        simpa [findCol, List.filter_cons, hp, List.find?_cons_of_neg, hc] using this
      · have hp' : p c = false := by
          cases hpc : p c
          · rfl
          · exact absurd hpc hp
        simpa [findCol, List.filter_cons, hp'] using ih htl

theorem findCol_map (f : Column → Column) (hf : ∀ c, (f c).name = c.name)
    (df : DF) (n : String) :
    findCol (df.map f) n = (findCol df n).map f := by
  induction df with
  | nil => rfl
  | cons c tl ih =>
    by_cases hc : c.name = n
    · have hfc : (f c).name = n := (hf c).trans hc
      simp [findCol, List.find?_cons_of_pos, hc, hfc]
    · have hfc : ¬ (f c).name = n := by
        rw [hf c]
        exact hc
      simpa [findCol, List.find?_cons_of_neg, hc, hfc] using ih

theorem findCol_append_left (df1 df2 : DF) (n : String) (col : Column)
    (h : findCol df1 n = some col) :
    findCol (df1 ++ df2) n = some col := by
  simp [findCol] at h ⊢
  simp [List.find?_append, h]

/-! Lemmas about the date formatters and the freshness label chain. -/

theorem formatDaysDMY_length (z : Int) : (formatDaysDMY z).length = 10 := rfl

theorem formatDaysDMY_ne_NA (z : Int) : formatDaysDMY z ≠ "N/A" := by
  intro h
  have h10 : ("N/A" : String).length = 10 := h ▸ formatDaysDMY_length z
  exact absurd h10 (by decide)

theorem formatDaysDMY_ne_empty (z : Int) : formatDaysDMY z ≠ "" := by
  intro h
  have h10 : ("" : String).length = 10 := h ▸ formatDaysDMY_length z
  exact absurd h10 (by decide)

theorem formatTsDMY_ne_NA (t : Int) : formatTsDMY t ≠ "N/A" :=
  formatDaysDMY_ne_NA (t.fdiv 86400)

theorem formatTsDMY_ne_empty (t : Int) : formatTsDMY t ≠ "" :=
  formatDaysDMY_ne_empty (t.fdiv 86400)

theorem crowleyRawLabel_spec (df : DF) :
    (crowleyRawLabel df = "N/A" ∧
      ∀ c, findCol df "Data_Dt" = some c → maxDate c.vals = none) ∨
    (∃ c m, findCol df "Data_Dt" = some c ∧ maxDate c.vals = some m ∧
      crowleyRawLabel df = formatDaysDMY m) := by
  rcases hc : findCol df "Data_Dt" with _ | c
  · refine Or.inl ⟨by simp [crowleyRawLabel, hc], ?_⟩
    intro c' h'
    cases h'
  · rcases hm : maxDate c.vals with _ | m
    · refine Or.inl ⟨by simp [crowleyRawLabel, hc, hm], ?_⟩
      intro c' h'
      cases h'
      exact hm
    · exact Or.inr ⟨c, m, rfl, hm, by simp [crowleyRawLabel, hc, hm]⟩

theorem formatMY_length (z : Int) : (formatMY z).length = 7 := rfl

theorem formatMY_ne_NA (z : Int) : formatMY z ≠ "N/A" := by
  intro h
  have h7 : ("N/A" : String).length = 7 := h ▸ formatMY_length z
  exact absurd h7 (by decide)

theorem formatMY_ne_empty (z : Int) : formatMY z ≠ "" := by
  intro h
  have h7 : ("" : String).length = 7 := h ▸ formatMY_length z
  exact absurd h7 (by decide)

theorem formatTsDMYHM_length (t : Int) : (formatTsDMYHM t).length = 16 := rfl

theorem formatTsDMYHM_ne_empty (t : Int) : formatTsDMYHM t ≠ "" := by
  intro h
  have h16 : ("" : String).length = 16 := h ▸ formatTsDMYHM_length t
  exact absurd h16 (by decide)

theorem vendasRawLabel_spec (df : DF) :
    (vendasRawLabel df = "N/A" ∧
      ∀ c, findCol df "data_ref" = some c → c.dtype = Dtype.datetime →
        maxDate c.vals = none) ∨
    (∃ c m, findCol df "data_ref" = some c ∧ c.dtype = Dtype.datetime ∧
      maxDate c.vals = some m ∧ vendasRawLabel df = formatMY m) := by
  rcases hc : findCol df "data_ref" with _ | c
  · refine Or.inl ⟨by simp [vendasRawLabel, hc], ?_⟩
    intro c' h'
    cases h'
  · by_cases hd : c.dtype = Dtype.datetime
    · rcases hm : maxDate c.vals with _ | m
      · refine Or.inl ⟨by simp [vendasRawLabel, hc, hd, hm], ?_⟩
        intro c' h' hd'
        cases h'
        exact hm
      · exact Or.inr ⟨c, m, rfl, hd, hm, by simp [vendasRawLabel, hc, hd, hm]⟩
    · refine Or.inl ⟨by simp [vendasRawLabel, hc, hd], ?_⟩
      intro c' h' hd'
      cases h'
      exact absurd hd' hd

theorem crowleyFreshness_ne_empty (df : DF) (mt : Int) :
    crowleyFreshness df mt ≠ "" := by
  show (if crowleyRawLabel df = "N/A" then formatTsDMY mt
        else crowleyRawLabel df) ≠ ""
  by_cases h : crowleyRawLabel df = "N/A"
  · rw [if_pos h]
    exact formatTsDMY_ne_empty mt
  · rw [if_neg h]
    rcases crowleyRawLabel_spec df with ⟨hna, _⟩ | ⟨c, m, _, _, heq⟩
    · exact absurd hna h
    · rw [heq]
      exact formatDaysDMY_ne_empty m

/-! Lemmas about the transform stage. -/

theorem cols_cat_props : ∀ c ∈ cols_cat,
    c ∈ cols_to_load ∧ c ∉ cols_num ∧ c ≠ "Data" := by decide

theorem cols_num_props : ∀ c ∈ cols_num,
    c ∈ cols_to_load ∧ c ∉ cols_cat ∧ c ≠ "Data" := by decide

theorem findCol_step1 (df : DF) (sf : Bool) (n : String) (col : Column)
    (h1 : n ∈ cols_to_load) (hfind : findCol df n = some col) :
    findCol
      (if sf then df
       else selectCols df (cols_to_load.filter (fun c => decide (c ∈ colNames df)))) n
      = some col := by
  cases sf
  · simp only [if_neg Bool.false_ne_true]
    refine findCol_filter df _ n col hfind ?_
    intro c hcname
    have hmem : n ∈ colNames df := findCol_mem_colNames df n col hfind
    have : c.name ∈ cols_to_load.filter (fun c => decide (c ∈ colNames df)) := by
      rw [hcname]
      exact List.mem_filter.mpr ⟨h1, by simpa using hmem⟩
    simpa [selectCols] using this
  · simpa using hfind

theorem transform_cat_general (df : DF) (sf : Bool) (cname : String) (col : Column)
    (h1 : cname ∈ cols_to_load) (h2 : cname ∈ cols_cat) (h3 : cname ∉ cols_num)
    (h4 : cname ≠ "Data") (hfind : findCol df cname = some col) :
    findCol (transform_df df sf) cname = some ⟨cname, Dtype.cat, col.vals⟩ := by
  have hstep1 := findCol_step1 df sf cname col h1 hfind
  set df1 :=
    (if sf then df
     else selectCols df (cols_to_load.filter (fun c => decide (c ∈ colNames df)))) with hdf1
  have hn1 : col.name = cname := findCol_name _ _ _ hstep1
  have hcat : findCol (applyCat df1) cname = some ⟨cname, Dtype.cat, col.vals⟩ := by
    rw [applyCat, findCol_map catOne (fun c => by simp [catOne]; split <;> rfl) df1 cname,
      hstep1]
    simp [catOne, hn1, h2]
  have hnum : findCol (applyNum (applyCat df1)) cname
      = some ⟨cname, Dtype.cat, col.vals⟩ := by
    rw [applyNum, findCol_map numOne (fun c => by simp [numOne]; split <;> rfl) _ cname,
      hcat]
    simp [numOne, h3]
  have : transform_df df sf = applyDate (applyNum (applyCat df1)) := by
    rw [transform_df]
  rw [this, applyDate]
  rcases hd : findCol (applyNum (applyCat df1)) "Data" with _ | dcol
  · exact hnum
  · refine findCol_append_left _ _ cname _ ?_
    refine findCol_filter _ _ cname _ hnum ?_
    intro c hcname
    simp [hcname, h4]

theorem transform_num_general (df : DF) (sf : Bool) (nname : String) (col : Column)
    (h1 : nname ∈ cols_to_load) (h2 : nname ∉ cols_cat) (h3 : nname ∈ cols_num)
    (h4 : nname ≠ "Data") (hfind : findCol df nname = some col) :
    findCol (transform_df df sf) nname
      = some ⟨nname, Dtype.int32, col.vals.map (fun v => CVal.vint (numCellVal v))⟩ := by
  have hstep1 := findCol_step1 df sf nname col h1 hfind
  set df1 :=
    (if sf then df
     else selectCols df (cols_to_load.filter (fun c => decide (c ∈ colNames df)))) with hdf1
  have hn1 : col.name = nname := findCol_name _ _ _ hstep1
  have hcat : findCol (applyCat df1) nname = some col := by
    rw [applyCat, findCol_map catOne (fun c => by simp [catOne]; split <;> rfl) df1 nname,
      hstep1]
    simp [catOne, hn1, h2]
  have hnum : findCol (applyNum (applyCat df1)) nname
      = some ⟨nname, Dtype.int32, col.vals.map (fun v => CVal.vint (numCellVal v))⟩ := by
    rw [applyNum, findCol_map numOne (fun c => by simp [numOne]; split <;> rfl) _ nname,
      hcat]
    simp [numOne, hn1, h3]
  have : transform_df df sf = applyDate (applyNum (applyCat df1)) := by
    rw [transform_df]
  rw [this, applyDate]
  rcases hd : findCol (applyNum (applyCat df1)) "Data" with _ | dcol
  · exact hnum
  · refine findCol_append_left _ _ nname _ ?_
    refine findCol_filter _ _ nname _ hnum ?_
    intro c hcname
    simp [hcname, h4]

/-- Evaluation of the transform stage on a readable raw artifact. -/
theorem optimize_on_table (fs : FS) (raw opt : String) (o : Oracle)
    (mt : Int) (df : DF)
    (h : lookupF fs raw = some ⟨mt, FileContent.table df⟩) :
    optimize_crowley fs raw opt o =
      (!o.schemaFails,
        writeF fs opt ⟨o.now, FileContent.table (transform_df df o.schemaFails)⟩) := by
  simp [optimize_crowley, h]

/-! Evaluation lemmas for the refresh pipeline. -/

/-- A fresh cache hit short-circuits the pipeline: nothing is touched. -/
theorem nuclear_fresh (o : Oracle) (fs : FS) (pf : String) (pr : Option String)
    (ic : Bool) (h : freshCacheHit fs pf o.driveDt = true) :
    nuclear_download_sequence o fs pf pr ic = (false, fs) := by
  simp [nuclear_download_sequence, h]

/-- Full evaluation of a non-fresh transformed-dataset run: reset, download
(or truncated leftover), transform, raw deletion, with the result flag
determined by the download and schema outcomes. -/
theorem nuclear_crowley_eval (o : Oracle) (fs : FS) (pf pr : String)
    (hhit : freshCacheHit fs pf o.driveDt = false) :
    nuclear_download_sequence o fs pf (some pr) true =
      if o.downloadOk then
        (!o.schemaFails,
          removeF
            (writeF (writeF (removeF (removeF fs pf) pr) pr
                ⟨o.now, FileContent.table o.remoteTable⟩) pf
              ⟨o.now, FileContent.table (transform_df o.remoteTable o.schemaFails)⟩)
            pr)
      else
        (false, writeF (removeF (removeF fs pf) pr) pr ⟨o.now, FileContent.truncated⟩) := by
  have hopt := optimize_on_table
    (writeF (removeF (removeF fs pf) pr) pr ⟨o.now, FileContent.table o.remoteTable⟩)
    pr pf o o.now o.remoteTable
    (lookupF_writeF_self (removeF (removeF fs pf) pr) pr
      ⟨o.now, FileContent.table o.remoteTable⟩)
  cases hdl : o.downloadOk <;> cases hsf : o.schemaFails <;>
    simp_all [nuclear_download_sequence, hhit]

/-! Claim theorems. -/

/-- C1: the refresh pipeline decides that a refresh is needed exactly when
the local artifact does not exist, or the remote instant is absent, or the
local modification instant is strictly below the remote instant; whenever
the decision is negative (in particular when the two instants are equal)
the pipeline returns immediately with the filesystem untouched. -/
theorem stale_decision_iff (fs : FS) (p : String) (r : Option Int) :
    (needs_refresh fs p r = true ↔
      lookupF fs p = none ∨ r = none ∨
        ∃ f d, lookupF fs p = some f ∧ r = some d ∧ f.mtime < d) ∧
    (∀ (o : Oracle) (pr : Option String) (ic : Bool), o.driveDt = r →
      needs_refresh fs p r = false →
      nuclear_download_sequence o fs p pr ic = (false, fs)) := by
  constructor
  · rcases hl : lookupF fs p with _ | f <;> rcases r with _ | d <;>
      simp [needs_refresh, freshCacheHit, hl]
  · intro o pr ic ho h
    have hhit : freshCacheHit fs p o.driveDt = true := by
      rw [ho]
      revert h
      simp [needs_refresh]
    exact nuclear_fresh o fs p pr ic hhit

/-- Witness for `stale_decision_iff`: with equal local and remote instants
the decision is negative and a concrete run leaves the filesystem as is. -/
theorem stale_decision_iff_witness :
    needs_refresh [(PATH_CROWLEY_OPT, ⟨10, FileContent.table []⟩)]
        PATH_CROWLEY_OPT (some 10) = false ∧
    nuclear_download_sequence ⟨some 10, true, false, [], 99⟩
        [(PATH_CROWLEY_OPT, ⟨10, FileContent.table []⟩)] PATH_CROWLEY_OPT none false
      = (false, [(PATH_CROWLEY_OPT, ⟨10, FileContent.table []⟩)]) :=
  ⟨by decide,
    (stale_decision_iff [(PATH_CROWLEY_OPT, ⟨10, FileContent.table []⟩)]
        PATH_CROWLEY_OPT (some 10)).2
      ⟨some 10, true, false, [], 99⟩ none false rfl (by decide)⟩

/-- C9: the pipeline's boolean result is ambiguous: it is `false` both on a
fresh cache hit (no refresh was needed) and on a needed refresh whose
download step fails. -/
theorem pipeline_bool_ambiguous :
    nuclear_download_sequence ⟨some 5, true, false, [], 99⟩
        [(PATH_CROWLEY_OPT, ⟨10, FileContent.table []⟩)]
        PATH_CROWLEY_OPT (some PATH_CROWLEY_RAW) true
      = (false, [(PATH_CROWLEY_OPT, ⟨10, FileContent.table []⟩)]) ∧
    freshCacheHit [(PATH_CROWLEY_OPT, ⟨10, FileContent.table []⟩)]
      PATH_CROWLEY_OPT (some 5) = true ∧
    (nuclear_download_sequence ⟨some 5, false, false, [], 99⟩ []
        PATH_CROWLEY_OPT (some PATH_CROWLEY_RAW) true).1 = false ∧
    needs_refresh [] PATH_CROWLEY_OPT (some 5) = true := by decide

/-- C5 counterexample: the transform stage recodes a designated column to
categorical without coercing its values to text first: an integer cell of
`Praca` is still an integer (not the text `"5"`) in the optimized
artifact. -/
theorem cat_coercion_cex :
    lookupF (optimize_crowley
        [(PATH_CROWLEY_RAW,
          ⟨50, FileContent.table [⟨"Praca", Dtype.obj, [CVal.vint 5]⟩]⟩)]
        PATH_CROWLEY_RAW PATH_CROWLEY_OPT ⟨some 100, true, false, [], 60⟩).2
      PATH_CROWLEY_OPT
      = some ⟨60, FileContent.table [⟨"Praca", Dtype.cat, [CVal.vint 5]⟩]⟩ ∧
    CVal.vint 5 ≠ CVal.vstr "5" := by decide

/-- C4: on a raw input whose schema inspection fails, the transform stage
reads all columns, applies every narrowing step and persists the optimized
artifact, yet returns failure (the source's `del df, schema` raises
`NameError` on the fallback path, where `schema` was never bound). -/
theorem schema_fallback_hard_fails :
    (optimize_crowley
        [(PATH_CROWLEY_RAW,
          ⟨50, FileContent.table [⟨"Praca", Dtype.obj, [CVal.vstr "SP"]⟩]⟩)]
        PATH_CROWLEY_RAW PATH_CROWLEY_OPT ⟨some 100, true, true, [], 60⟩).1 = false ∧
    lookupF (optimize_crowley
        [(PATH_CROWLEY_RAW,
          ⟨50, FileContent.table [⟨"Praca", Dtype.obj, [CVal.vstr "SP"]⟩]⟩)]
        PATH_CROWLEY_RAW PATH_CROWLEY_OPT ⟨some 100, true, true, [], 60⟩).2
      PATH_CROWLEY_OPT
      = some ⟨60, FileContent.table [⟨"Praca", Dtype.cat, [CVal.vstr "SP"]⟩]⟩ := by decide

/-- C3: after a refresh cycle whose transform stage fails (schema
inspection raised, so the stage persisted the optimized artifact and then
failed on `del df, schema`), the pipeline reports failure and deletes the
raw artifact, but the optimized artifact written by the failed cycle is
left on disk - no cleanup of the optimized artifact happens. -/
theorem transform_failure_artifact_remains :
    (nuclear_download_sequence
        ⟨some 100, true, true, [⟨"Praca", Dtype.obj, [CVal.vstr "SP"]⟩], 50⟩ []
        PATH_CROWLEY_OPT (some PATH_CROWLEY_RAW) true).1 = false ∧
    lookupF (nuclear_download_sequence
        ⟨some 100, true, true, [⟨"Praca", Dtype.obj, [CVal.vstr "SP"]⟩], 50⟩ []
        PATH_CROWLEY_OPT (some PATH_CROWLEY_RAW) true).2 PATH_CROWLEY_OPT
      = some ⟨50, FileContent.table [⟨"Praca", Dtype.cat, [CVal.vstr "SP"]⟩]⟩ ∧
    lookupF (nuclear_download_sequence
        ⟨some 100, true, true, [⟨"Praca", Dtype.obj, [CVal.vstr "SP"]⟩], 50⟩ []
        PATH_CROWLEY_OPT (some PATH_CROWLEY_RAW) true).2 PATH_CROWLEY_RAW
      = none := by decide

/-- C10: the Crowley accessor decides success by on-disk existence and
ignores the pipeline's boolean: in a run whose transform stage failed after
writing the optimized artifact, the pipeline returns `false`, yet
`load_crowley_base` reads the artifact and serves a table. -/
theorem accessor_serves_on_existence :
    (nuclear_download_sequence
        ⟨some 100, true, true, [⟨"Praca", Dtype.obj, [CVal.vstr "SP"]⟩], 50⟩ []
        PATH_CROWLEY_OPT (some PATH_CROWLEY_RAW) true).1 = false ∧
    (load_crowley_base ⟨true, true, true, ["crowley_parquet"]⟩
        ⟨some 100, true, true, [⟨"Praca", Dtype.obj, [CVal.vstr "SP"]⟩], 50⟩
        []).toOption.map (fun r => r.1.1.isSome) = some true := by decide

/-- C7: after every successful refresh cycle of the transformed dataset,
exactly one optimized artifact and zero raw artifacts exist on disk for the
descriptor. -/
theorem refresh_success_unique_artifacts (o : Oracle) (fs : FS) (pf pr : String)
    (hne : pf ≠ pr)
    (h : (nuclear_download_sequence o fs pf (some pr) true).1 = true) :
    ∃ e, lookupF (nuclear_download_sequence o fs pf (some pr) true).2 pf = some e ∧
      lookupF (nuclear_download_sequence o fs pf (some pr) true).2 pr = none ∧
      countKey (nuclear_download_sequence o fs pf (some pr) true).2 pf = 1 ∧
      countKey (nuclear_download_sequence o fs pf (some pr) true).2 pr = 0 := by
  by_cases hhit : freshCacheHit fs pf o.driveDt = true
  · rw [nuclear_fresh o fs pf (some pr) true hhit] at h
    exact absurd h (by simp)
  · have hhit' : freshCacheHit fs pf o.driveDt = false := by
      cases hv : freshCacheHit fs pf o.driveDt
      · rfl
      · exact absurd hv hhit
    rw [nuclear_crowley_eval o fs pf pr hhit'] at h ⊢
    by_cases hdl : o.downloadOk = true
    · rw [if_pos hdl] at h ⊢
      refine ⟨⟨o.now, FileContent.table (transform_df o.remoteTable o.schemaFails)⟩,
        ?_, ?_, ?_, ?_⟩
      · rw [lookupF_removeF_ne _ pr pf hne, lookupF_writeF_self]
      · exact lookupF_removeF_self _ pr
      · rw [countKey_removeF_ne _ pr pf hne, countKey_writeF_self]
      · exact countKey_removeF_self _ pr
    · rw [if_neg hdl] at h
      exact absurd h (by simp)

/-- Witness for `refresh_success_unique_artifacts`: a concrete successful
refresh leaves one optimized artifact and no raw artifact. -/
theorem refresh_success_unique_artifacts_witness :
    ∃ e, lookupF (nuclear_download_sequence
        ⟨some 100, true, false, [⟨"Praca", Dtype.obj, [CVal.vstr "SP"]⟩], 50⟩ []
        PATH_CROWLEY_OPT (some PATH_CROWLEY_RAW) true).2 PATH_CROWLEY_OPT = some e ∧
      lookupF (nuclear_download_sequence
        ⟨some 100, true, false, [⟨"Praca", Dtype.obj, [CVal.vstr "SP"]⟩], 50⟩ []
        PATH_CROWLEY_OPT (some PATH_CROWLEY_RAW) true).2 PATH_CROWLEY_RAW = none ∧
      countKey (nuclear_download_sequence
        ⟨some 100, true, false, [⟨"Praca", Dtype.obj, [CVal.vstr "SP"]⟩], 50⟩ []
        PATH_CROWLEY_OPT (some PATH_CROWLEY_RAW) true).2 PATH_CROWLEY_OPT = 1 ∧
      countKey (nuclear_download_sequence
        ⟨some 100, true, false, [⟨"Praca", Dtype.obj, [CVal.vstr "SP"]⟩], 50⟩ []
        PATH_CROWLEY_OPT (some PATH_CROWLEY_RAW) true).2 PATH_CROWLEY_RAW = 0 :=
  refresh_success_unique_artifacts
    ⟨some 100, true, false, [⟨"Praca", Dtype.obj, [CVal.vstr "SP"]⟩], 50⟩ []
    PATH_CROWLEY_OPT PATH_CROWLEY_RAW (by decide) (by decide)

/-- Inversion of the Crowley read section on a served table: the table
comes from the optimized artifact, the label is the freshness chain on that
artifact's modification instant, and the filesystem is returned as is. -/
theorem crowley_read_spec (fs1 : FS) (df : DF) (lab : Option String) (fs' : FS)
    (h : crowley_read fs1 = ((some df, lab), fs')) :
    ∃ f, lookupF fs1 PATH_CROWLEY_OPT = some f ∧
      f.content = FileContent.table df ∧
      lab = some (crowleyFreshness df f.mtime) ∧ fs' = fs1 := by
  unfold crowley_read at h
  split at h
  next hl => simp at h
  next f hl =>
    split at h
    next df0 hcon =>
      simp at h
      obtain ⟨⟨hdf, hlab⟩, hfs⟩ := h
      exact ⟨f, hl, by rw [hcon, hdf], by rw [← hlab, hdf], hfs.symm⟩
    next hcon => simp at h

/-- Inversion of the Vendas read section on a served table: the label is
the Vendas freshness chain on the pipeline's filesystem, which is returned
as is, and the Vendas artifact exists on it. -/
theorem vendas_read_spec (nf : DF → Option DF) (fs1 : FS) (df : DF)
    (lab : Option String) (fs' : FS)
    (h : vendas_read nf fs1 = ((some df, lab), fs')) :
    lab = some (vendasFreshness df fs1) ∧ fs' = fs1 ∧
      ∃ f, lookupF fs1 PATH_VENDAS = some f := by
  unfold vendas_read at h
  split at h
  next f hl =>
    split at h
    next raw hcon =>
      split at h
      next df0 hnf =>
        simp at h
        obtain ⟨⟨hdf, hlab⟩, hfs⟩ := h
        exact ⟨by rw [← hlab, hdf], hfs.symm, f, hl⟩
      next hnf => simp at h
    next hcon => simp at h
  next hl => simp at h

/-- C8: whenever either Cached Accessor serves a table, the freshness label
is present and non-empty; it is the formatted maximum of the derived date
column (`Data_Dt` for Crowley; `data_ref`, which carries datetime dtype by
construction, for Vendas) when that column exists and its maximum is
non-null, and otherwise the formatted filesystem modification instant of
the served artifact. -/
theorem freshness_fallback_chain :
    (∀ (s : Secrets) (o : Oracle) (fs : FS) (df : DF) (lab : Option String) (fs' : FS),
      load_crowley_base s o fs = Except.ok ((some df, lab), fs') →
      ∃ l, lab = some l ∧ l ≠ "" ∧
        ((∃ c m, findCol df "Data_Dt" = some c ∧ maxDate c.vals = some m ∧
            l = formatDaysDMY m) ∨
          ((∀ c, findCol df "Data_Dt" = some c → maxDate c.vals = none) ∧
            ∃ f, lookupF fs' PATH_CROWLEY_OPT = some f ∧ l = formatTsDMY f.mtime))) ∧
    (∀ (s : Secrets) (o : Oracle) (nf : DF → Option DF) (fs : FS) (df : DF)
        (lab : Option String) (fs' : FS),
      fetch_from_drive s o nf fs = Except.ok ((some df, lab), fs') →
      ∃ l, lab = some l ∧ l ≠ "" ∧
        ((∃ c m, findCol df "data_ref" = some c ∧ c.dtype = Dtype.datetime ∧
            maxDate c.vals = some m ∧ l = formatMY m) ∨
          ((∀ c, findCol df "data_ref" = some c → c.dtype = Dtype.datetime →
              maxDate c.vals = none) ∧
            ∃ f, lookupF fs' PATH_VENDAS = some f ∧ l = formatTsDMYHM f.mtime))) := by
  constructor
  · intro s o fs df lab fs' h
    unfold load_crowley_base at h
    rcases hs : get_drive_service s with _ | u <;> rw [hs] at h
    · simp at h
    · by_cases hk : "crowley_parquet" ∈ s.driveKeys
      · rw [if_pos hk] at h
        have hread : crowley_read
            (nuclear_download_sequence o fs PATH_CROWLEY_OPT (some PATH_CROWLEY_RAW) true).2
            = ((some df, lab), fs') := by
          simpa using h
        obtain ⟨f, hf, hcon, hlab, hfs⟩ := crowley_read_spec _ df lab fs' hread
        refine ⟨crowleyFreshness df f.mtime, hlab,
          crowleyFreshness_ne_empty df f.mtime, ?_⟩
        have hcf : crowleyFreshness df f.mtime =
            if crowleyRawLabel df = "N/A" then formatTsDMY f.mtime
            else crowleyRawLabel df := rfl
        rcases crowleyRawLabel_spec df with ⟨hna, hall⟩ | ⟨c, m, hc, hm, heq⟩
        · refine Or.inr ⟨hall, f, ?_, ?_⟩
          · rw [hfs]
            exact hf
          · rw [hcf, if_pos hna]
        · refine Or.inl ⟨c, m, hc, hm, ?_⟩
          rw [hcf, if_neg (heq ▸ formatDaysDMY_ne_NA m), heq]
      · rw [if_neg hk] at h
        simp at h
  · intro s o nf fs df lab fs' h
    unfold fetch_from_drive at h
    rcases hs : get_drive_service s with _ | u <;> rw [hs] at h
    · simp at h
    · by_cases hk : "faturamento_xlsx" ∈ s.driveKeys
      · rw [if_pos hk] at h
        have hread : vendas_read nf
            (nuclear_download_sequence o fs PATH_VENDAS none false).2
            = ((some df, lab), fs') := by
          simpa using h
        obtain ⟨hlab, hfs, f, hf⟩ := vendas_read_spec nf _ df lab fs' hread
        refine ⟨vendasFreshness df
          (nuclear_download_sequence o fs PATH_VENDAS none false).2, hlab, ?_, ?_⟩
        · show vendasFreshness df _ ≠ ""
          rw [show vendasFreshness df
              (nuclear_download_sequence o fs PATH_VENDAS none false).2 =
              if vendasRawLabel df = "N/A" then
                match lookupF (nuclear_download_sequence o fs PATH_VENDAS none false).2
                    PATH_VENDAS with
                | some f => formatTsDMYHM f.mtime
                | none => "N/A"
              else vendasRawLabel df from rfl]
          by_cases hna : vendasRawLabel df = "N/A"
          · rw [if_pos hna, hf]
            exact formatTsDMYHM_ne_empty f.mtime
          · rw [if_neg hna]
            rcases vendasRawLabel_spec df with ⟨hna', _⟩ | ⟨c, m, _, _, _, heq⟩
            · exact absurd hna' hna
            · rw [heq]
              exact formatMY_ne_empty m
        · have hvf : vendasFreshness df
              (nuclear_download_sequence o fs PATH_VENDAS none false).2 =
              if vendasRawLabel df = "N/A" then
                match lookupF (nuclear_download_sequence o fs PATH_VENDAS none false).2
                    PATH_VENDAS with
                | some f => formatTsDMYHM f.mtime
                | none => "N/A"
              else vendasRawLabel df := rfl
          rcases vendasRawLabel_spec df with ⟨hna, hall⟩ | ⟨c, m, hc, hd, hm, heq⟩
          · refine Or.inr ⟨hall, f, ?_, ?_⟩
            · rw [hfs]
              exact hf
            · rw [hvf, if_pos hna, hf]
          · refine Or.inl ⟨c, m, hc, hd, hm, ?_⟩
            rw [hvf, if_neg (heq ▸ formatMY_ne_NA m), heq]
      · rw [if_neg hk] at h
        simp at h

/-- Witness for `freshness_fallback_chain`: concrete served tables with no
derived date column get the formatted modification instant of the served
artifact as their label, for both accessors. -/
theorem freshness_fallback_chain_witness :
    (∃ l, (some (crowleyFreshness [] 10) : Option String) = some l ∧ l ≠ "" ∧
      ((∃ c m, findCol [] "Data_Dt" = some c ∧ maxDate c.vals = some m ∧
          l = formatDaysDMY m) ∨
        ((∀ c, findCol [] "Data_Dt" = some c → maxDate c.vals = none) ∧
          ∃ f, lookupF [(PATH_CROWLEY_OPT, ⟨10, FileContent.table []⟩)]
              PATH_CROWLEY_OPT = some f ∧ l = formatTsDMY f.mtime))) ∧
    (∃ l, (some (vendasFreshness [] [(PATH_VENDAS, ⟨10, FileContent.table []⟩)])
        : Option String) = some l ∧ l ≠ "" ∧
      ((∃ c m, findCol [] "data_ref" = some c ∧ c.dtype = Dtype.datetime ∧
          maxDate c.vals = some m ∧ l = formatMY m) ∨
        ((∀ c, findCol [] "data_ref" = some c → c.dtype = Dtype.datetime →
            maxDate c.vals = none) ∧
          ∃ f, lookupF [(PATH_VENDAS, ⟨10, FileContent.table []⟩)]
              PATH_VENDAS = some f ∧ l = formatTsDMYHM f.mtime))) :=
  ⟨freshness_fallback_chain.1 ⟨true, true, true, ["crowley_parquet"]⟩
      ⟨some 5, true, false, [], 99⟩
      [(PATH_CROWLEY_OPT, ⟨10, FileContent.table []⟩)] []
      (some (crowleyFreshness [] 10))
      [(PATH_CROWLEY_OPT, ⟨10, FileContent.table []⟩)] rfl,
    freshness_fallback_chain.2 ⟨true, true, true, ["faturamento_xlsx"]⟩
      ⟨some 5, true, false, [], 99⟩ (fun df => some df)
      [(PATH_VENDAS, ⟨10, FileContent.table []⟩)] []
      (some (vendasFreshness [] [(PATH_VENDAS, ⟨10, FileContent.table []⟩)]))
      [(PATH_VENDAS, ⟨10, FileContent.table []⟩)] rfl⟩

/-- Whatever the filesystem, the Crowley read section produces a non-empty
label, and on failure one of the two descriptive read-stage labels. -/
theorem crowley_read_label (fs1 : FS) :
    ∃ lv, (crowley_read fs1).1.2 = some lv ∧ lv ≠ "" ∧
      ((crowley_read fs1).1.1 = none →
        lv = "Erro: Arquivo Inexistente" ∨ lv = "Erro Leitura") := by
  unfold crowley_read
  split
  next hl => exact ⟨_, rfl, by decide, fun _ => Or.inl rfl⟩
  next f hl =>
    split
    next df0 hcon => exact ⟨_, rfl, crowleyFreshness_ne_empty df0 f.mtime, by simp⟩
    next hcon => exact ⟨_, rfl, by decide, fun _ => Or.inr rfl⟩

/-- Whatever the filesystem, a Vendas read failure carries no label. -/
theorem vendas_read_label (nf : DF → Option DF) (fs1 : FS) :
    (vendas_read nf fs1).1.1 = none → (vendas_read nf fs1).1.2 = none := by
  unfold vendas_read
  split
  next f hl =>
    split
    next raw hcon =>
      split
      next df hnf =>
        intro hcontra
        simp at hcontra
      next hnf => intro hc; rfl
    next hcon => intro hc; rfl
  next hl => intro hc; rfl

/-- C2 counterexample: with the secrets sections missing, `fetch_from_drive`
fails (absent table) but pairs the absent table with an absent label rather
than a descriptive one. -/
theorem accessor_failure_label_cex :
    fetch_from_drive ⟨false, false, false, []⟩ ⟨none, false, false, [], 0⟩
      (fun df => some df) [] = Except.ok ((none, none), []) := rfl

/-- C2 amended: provided the configured `drive_files` secrets contain the
required file-id keys, neither accessor raises; every `load_crowley_base`
failure is an absent table paired with a descriptive non-empty label, while
a `fetch_from_drive` failure is an absent table paired with an absent
label. -/
theorem accessor_totality (s : Secrets) (o : Oracle) (nf : DF → Option DF) (fs : FS)
    (hf : "faturamento_xlsx" ∈ s.driveKeys)
    (hc : "crowley_parquet" ∈ s.driveKeys) :
    (∃ t l fs1, fetch_from_drive s o nf fs = Except.ok ((t, l), fs1) ∧
      (t = none → l = none)) ∧
    (∃ t l fs1, load_crowley_base s o fs = Except.ok ((t, l), fs1) ∧
      ∃ lv, l = some lv ∧ lv ≠ "" ∧
        (t = none → lv = "Erro Conexão" ∨ lv = "Erro: Arquivo Inexistente" ∨
          lv = "Erro Leitura")) := by
  constructor
  · unfold fetch_from_drive
    rcases hs : get_drive_service s with _ | u
    · exact ⟨none, none, fs, rfl, fun _ => rfl⟩
    · rw [if_pos hf]
      exact ⟨_, _, _, rfl,
        vendas_read_label nf (nuclear_download_sequence o fs PATH_VENDAS none false).2⟩
  · unfold load_crowley_base
    rcases hs : get_drive_service s with _ | u
    · exact ⟨none, some "Erro Conexão", fs, rfl, "Erro Conexão", rfl, by decide,
        fun _ => Or.inl rfl⟩
    · rw [if_pos hc]
      obtain ⟨lv, hlv, hne, hfail⟩ := crowley_read_label
        (nuclear_download_sequence o fs PATH_CROWLEY_OPT (some PATH_CROWLEY_RAW) true).2
      exact ⟨_, _, _, rfl, lv, hlv, hne, fun ht => Or.inr (hfail ht)⟩

/-- Witness for `accessor_totality` at a concrete configuration where the
metadata probe fails and the downloads fail. -/
theorem accessor_totality_witness :
    (∃ t l fs1, fetch_from_drive ⟨true, true, true, ["faturamento_xlsx", "crowley_parquet"]⟩
        ⟨none, false, false, [], 0⟩ (fun df => some df) []
        = Except.ok ((t, l), fs1) ∧ (t = none → l = none)) ∧
    (∃ t l fs1, load_crowley_base ⟨true, true, true, ["faturamento_xlsx", "crowley_parquet"]⟩
        ⟨none, false, false, [], 0⟩ []
        = Except.ok ((t, l), fs1) ∧
      ∃ lv, l = some lv ∧ lv ≠ "" ∧
        (t = none → lv = "Erro Conexão" ∨ lv = "Erro: Arquivo Inexistente" ∨
          lv = "Erro Leitura")) :=
  accessor_totality ⟨true, true, true, ["faturamento_xlsx", "crowley_parquet"]⟩
    ⟨none, false, false, [], 0⟩ (fun df => some df) [] (by decide) (by decide)

/-- C5 amended: for each designated low-cardinality column present in the
raw table, the transform stage recodes it directly to a dictionary-encoded
categorical representation, leaving the cell values unchanged (no prior
coercion of the values to text). -/
theorem cat_recode_direct (fs : FS) (raw opt : String) (o : Oracle) (mt : Int)
    (df : DF) (cname : String) (col : Column)
    (hraw : lookupF fs raw = some ⟨mt, FileContent.table df⟩)
    (hcat : cname ∈ cols_cat)
    (hfind : findCol df cname = some col) :
    ∃ df2, lookupF (optimize_crowley fs raw opt o).2 opt
        = some ⟨o.now, FileContent.table df2⟩ ∧
      findCol df2 cname = some ⟨cname, Dtype.cat, col.vals⟩ := by
  obtain ⟨h1, h3, h4⟩ := cols_cat_props cname hcat
  rw [optimize_on_table fs raw opt o mt df hraw]
  exact ⟨transform_df df o.schemaFails,
    lookupF_writeF_self fs opt
      ⟨o.now, FileContent.table (transform_df df o.schemaFails)⟩,
    transform_cat_general df o.schemaFails cname col h1 hcat h3 h4 hfind⟩

/-- Witness for `cat_recode_direct`: a concrete integer-valued `Praca`
column is recoded to categorical with its integer cell intact. -/
theorem cat_recode_direct_witness :
    ∃ df2, lookupF (optimize_crowley
        [(PATH_CROWLEY_RAW,
          ⟨50, FileContent.table [⟨"Praca", Dtype.obj, [CVal.vint 5]⟩]⟩)]
        PATH_CROWLEY_RAW PATH_CROWLEY_OPT ⟨some 100, true, false, [], 60⟩).2
        PATH_CROWLEY_OPT
        = some ⟨60, FileContent.table df2⟩ ∧
      findCol df2 "Praca" = some ⟨"Praca", Dtype.cat, [CVal.vint 5]⟩ :=
  cat_recode_direct
    [(PATH_CROWLEY_RAW, ⟨50, FileContent.table [⟨"Praca", Dtype.obj, [CVal.vint 5]⟩]⟩)]
    PATH_CROWLEY_RAW PATH_CROWLEY_OPT ⟨some 100, true, false, [], 60⟩ 50
    [⟨"Praca", Dtype.obj, [CVal.vint 5]⟩] "Praca" ⟨"Praca", Dtype.obj, [CVal.vint 5]⟩
    rfl (by decide) rfl

/-- C6: on a raw table containing a designated categorical column and a
designated numeric column with an unparseable entry, the transform succeeds
(schema inspection worked), the optimized output has the categorical column
dictionary-encoded, and the numeric column is int32 with the unparseable
entry coerced to zero in place - the row count is preserved. -/
theorem transform_type_contract (fs : FS) (raw opt : String) (o : Oracle) (mt : Int)
    (df : DF) (cname nname : String) (ccol ncol : Column) (i : Nat) (s : String)
    (hraw : lookupF fs raw = some ⟨mt, FileContent.table df⟩)
    (hsf : o.schemaFails = false)
    (hcat : cname ∈ cols_cat)
    (hfc : findCol df cname = some ccol)
    (hnum : nname ∈ cols_num)
    (hfn : findCol df nname = some ncol)
    (hcell : ncol.vals[i]? = some (CVal.vstr s))
    (hbad : parseNumS s = none) :
    (optimize_crowley fs raw opt o).1 = true ∧
    ∃ df2, lookupF (optimize_crowley fs raw opt o).2 opt
        = some ⟨o.now, FileContent.table df2⟩ ∧
      findCol df2 cname = some ⟨cname, Dtype.cat, ccol.vals⟩ ∧
      ∃ nc, findCol df2 nname = some nc ∧ nc.dtype = Dtype.int32 ∧
        nc.vals.length = ncol.vals.length ∧ nc.vals[i]? = some (CVal.vint 0) := by
  obtain ⟨hc1, hc3, hc4⟩ := cols_cat_props cname hcat
  obtain ⟨hn1, hn2, hn4⟩ := cols_num_props nname hnum
  rw [optimize_on_table fs raw opt o mt df hraw]
  refine ⟨by rw [hsf]; rfl, transform_df df o.schemaFails,
    lookupF_writeF_self fs opt
      ⟨o.now, FileContent.table (transform_df df o.schemaFails)⟩,
    transform_cat_general df o.schemaFails cname ccol hc1 hcat hc3 hc4 hfc,
    ⟨nname, Dtype.int32, ncol.vals.map (fun v => CVal.vint (numCellVal v))⟩,
    transform_num_general df o.schemaFails nname ncol hn1 hn2 hnum hn4 hfn,
    rfl, by simp, ?_⟩
  have hv : numCellVal (CVal.vstr s) = 0 := by
    simp only [numCellVal, hbad, Option.getD_none]
    decide
  rw [List.getElem?_map, hcell]
  simp [hv]

/-- Witness for `transform_type_contract` on a two-column table whose
`Duracao` entry `"abc"` is not numeric. -/
theorem transform_type_contract_witness :
    (optimize_crowley
        [(PATH_CROWLEY_RAW,
          ⟨50, FileContent.table
            [⟨"Praca", Dtype.obj, [CVal.vstr "SP"]⟩,
             ⟨"Duracao", Dtype.obj, [CVal.vstr "abc"]⟩]⟩)]
        PATH_CROWLEY_RAW PATH_CROWLEY_OPT ⟨some 100, true, false, [], 60⟩).1 = true ∧
    ∃ df2, lookupF (optimize_crowley
        [(PATH_CROWLEY_RAW,
          ⟨50, FileContent.table
            [⟨"Praca", Dtype.obj, [CVal.vstr "SP"]⟩,
             ⟨"Duracao", Dtype.obj, [CVal.vstr "abc"]⟩]⟩)]
        PATH_CROWLEY_RAW PATH_CROWLEY_OPT ⟨some 100, true, false, [], 60⟩).2
        PATH_CROWLEY_OPT
        = some ⟨60, FileContent.table df2⟩ ∧
      findCol df2 "Praca" = some ⟨"Praca", Dtype.cat, [CVal.vstr "SP"]⟩ ∧
      ∃ nc, findCol df2 "Duracao" = some nc ∧ nc.dtype = Dtype.int32 ∧
        nc.vals.length = [CVal.vstr "abc"].length ∧
        nc.vals[0]? = some (CVal.vint 0) :=
  transform_type_contract
    [(PATH_CROWLEY_RAW,
      ⟨50, FileContent.table
        [⟨"Praca", Dtype.obj, [CVal.vstr "SP"]⟩,
         ⟨"Duracao", Dtype.obj, [CVal.vstr "abc"]⟩]⟩)]
    PATH_CROWLEY_RAW PATH_CROWLEY_OPT ⟨some 100, true, false, [], 60⟩ 50
    [⟨"Praca", Dtype.obj, [CVal.vstr "SP"]⟩, ⟨"Duracao", Dtype.obj, [CVal.vstr "abc"]⟩]
    "Praca" "Duracao" ⟨"Praca", Dtype.obj, [CVal.vstr "SP"]⟩
    ⟨"Duracao", Dtype.obj, [CVal.vstr "abc"]⟩ 0 "abc"
    rfl rfl (by decide) rfl (by decide) (by decide) rfl (by decide)
